import Mathlib

/-!
Verification development for the `python-task-api` service
(multi-tenant task CRUD with a read-through Redis cache).

The embedding below is a shallow model of the repository's code:

* `app/core/config.py`   → `Settings`, `settings`
* `app/core/cache.py`    → `RedisState`, `cache_get`, `cache_set`,
                           `cache_delete`, `cache_delete_pattern`
* `app/api/tasks.py`     → `create_task`, `list_tasks`, `get_task`,
                           `update_task`, `delete_task`, `get_task_stats`
                           over an explicit `SystemState`
                           (relational store + cache contents)

The ORM module `app/models/models.py` is not part of the sources; the
task record shape and the status/priority enumerations are modelled from
the spec's data-model section (status: todo / in-progress / completed;
priority: low / medium / high; `completed_at` nullable; created/updated
timestamps).  Times are modelled as natural numbers, JSON payloads as
the values they serialize.
-/

namespace TaskApi

/-- Task status enumeration.  Modelled from the spec: the enum module
(`app/models/models.py`) is absent from the sources; the spec lists
todo / in-progress / completed. -/
inductive TaskStatus
  | todo
  | inProgress
  | completed
deriving DecidableEq, Repr

/-- Task priority enumeration.  Modelled from the spec: the enum module
(`app/models/models.py`) is absent from the sources; the spec lists
low / medium / high. -/
inductive TaskPriority
  | low
  | medium
  | high
deriving DecidableEq, Repr

/-- A task row, fields as in the `TaskInDB` schema of
`app/schemas/schemas.py` (id, owner_id, title, description, status,
priority, due_date, completed_at, created_at, updated_at). -/
structure Task where
  id : Nat
  owner_id : Nat
  title : String
  description : Option String
  status : TaskStatus
  priority : TaskPriority
  due_date : Option Nat
  completed_at : Option Nat
  created_at : Nat
  updated_at : Nat
deriving DecidableEq, Repr

/-- `TaskCreate` of `app/schemas/schemas.py`: the request body of the
create endpoint. -/
structure TaskCreate where
  title : String
  description : Option String
  status : TaskStatus
  priority : TaskPriority
  due_date : Option Nat
deriving DecidableEq, Repr

/-- `TaskUpdate` of `app/schemas/schemas.py`: all fields optional; the
outer `Option` is pydantic's "field present in the request body"
(`model_dump(exclude_unset=True)` drops the `none`s), the inner
`Option` on nullable columns is an explicit JSON null. -/
structure TaskUpdate where
  title : Option String := none
  description : Option (Option String) := none
  status : Option TaskStatus := none
  priority : Option TaskPriority := none
  due_date : Option (Option Nat) := none
deriving DecidableEq, Repr

/-- The slice of `Settings` (`app/core/config.py`) the cache code reads. -/
structure Settings where
  REDIS_CACHE_TTL : Int
  DEFAULT_PAGE_SIZE : Nat
  MAX_PAGE_SIZE : Nat
deriving Repr

/-- Default configuration values of `app/core/config.py`
(`REDIS_CACHE_TTL: int = 300`, `DEFAULT_PAGE_SIZE: int = 20`,
`MAX_PAGE_SIZE: int = 100`). -/
def settings : Settings :=
  { REDIS_CACHE_TTL := 300, DEFAULT_PAGE_SIZE := 20, MAX_PAGE_SIZE := 100 }

/-- Python's `x or y` on an `Optional[int]`: `None` and `0` are falsy,
every other int is truthy (used by `cache_set` for the ttl default). -/
def pyOrInt (x : Option Int) (y : Int) : Int :=
  match x with
  | none => y
  | some v => if v = 0 then y else v

/-- Redis glob-style pattern matching over character lists, as used by
`client.keys(pattern)`: `*` matches any (possibly empty) run of
characters, `?` matches exactly one character, every other character
matches itself.  (The code only ever passes patterns with a single
trailing `*`.) -/
def globMatch : List Char → List Char → Bool
  | [], s => s.isEmpty
  | c :: ps, s =>
    if c = '*' then suffixAny (globMatch ps) s
    else
      match s with
      | [] => false
      | d :: cs => (if c = '?' then true else c = d) && globMatch ps cs
where
  /-- Does `f` accept some suffix of the string?  (`*` consumes any run
  of characters, the empty one included.) -/
  suffixAny (f : List Char → Bool) : List Char → Bool
    | [] => f []
    | s@(_ :: cs) => f s || suffixAny f cs

/-- Glob matching on strings. -/
def stringGlobMatch (pat s : String) : Bool :=
  globMatch pat.data s.data

/-! ## Embedding of `app/core/cache.py`

The Redis backend is modelled as an explicit state: an availability
flag and the stored keyspace.  Each stored entry records the TTL it was
given by `SETEX` (expiry itself needs a clock and is not modelled; the
recorded TTL is what the claims are about).  Since the code has no
`try`/`except` around any client call, a backend error surfaces as an
`Except.error` of the whole operation — exactly as the Python exception
would propagate out of the `await`. -/

/-- Error raised by the Redis client when the backend is unreachable. -/
inductive RedisError
  | connectionUnavailable
deriving DecidableEq, Repr

/-- The Redis backend: availability flag plus stored entries
`(key, serialized value, ttl)`. -/
structure RedisState where
  available : Bool
  data : List (String × String × Int)
deriving DecidableEq, Repr

/-- `client.get(key)`: the stored serialized value, or an error when the
backend is down. -/
def redisGet (st : RedisState) (key : String) :
    Except RedisError (Option String) :=
  if st.available then
    .ok ((st.data.find? (fun e => e.1 == key)).map (fun e => e.2.1))
  else
    .error .connectionUnavailable

/-- `client.setex(key, ttl, value)`: store the value under the key with
the given TTL, overwriting any previous entry. -/
def redisSetex (st : RedisState) (key : String) (ttl : Int) (value : String) :
    Except RedisError RedisState :=
  if st.available then
    .ok { st with data := (key, value, ttl) :: st.data.filter (fun e => !(e.1 == key)) }
  else
    .error .connectionUnavailable

/-- `client.delete(*keys)`: remove the keys, returning how many existed. -/
def redisDelete (st : RedisState) (keys : List String) :
    Except RedisError (RedisState × Nat) :=
  if st.available then
    .ok ({ st with data := st.data.filter (fun e => !(keys.contains e.1)) },
         (st.data.filter (fun e => keys.contains e.1)).length)
  else
    .error .connectionUnavailable

/-- `client.keys(pattern)`: all stored keys matching the glob pattern. -/
def redisKeys (st : RedisState) (pattern : String) :
    Except RedisError (List String) :=
  if st.available then
    .ok ((st.data.filter (fun e => stringGlobMatch pattern e.1)).map (fun e => e.1))
  else
    .error .connectionUnavailable

/-- `cache_get` of `app/core/cache.py`: fetch and deserialize.  The code
is `value = await client.get(key); if value: return json.loads(value);
return None` — no exception handling, and an empty string is falsy. -/
def cache_get (st : RedisState) (key : String) :
    Except RedisError (Option String) := do
  let value ← redisGet st key
  match value with
  | some s => if s == "" then pure none else pure (some s)
  | none => pure none

/-- `cache_set` of `app/core/cache.py`:
`ttl = ttl or settings.REDIS_CACHE_TTL; client.setex(key, ttl, json.dumps(value))`.
No exception handling. -/
def cache_set (st : RedisState) (key : String) (value : String)
    (ttl : Option Int := none) : Except RedisError RedisState :=
  redisSetex st key (pyOrInt ttl settings.REDIS_CACHE_TTL) value

/-- `cache_delete` of `app/core/cache.py`:
`return await client.delete(key) > 0`.  No exception handling. -/
def cache_delete (st : RedisState) (key : String) :
    Except RedisError (RedisState × Bool) := do
  let (st', n) ← redisDelete st [key]
  pure (st', n > 0)

/-- `cache_delete_pattern` of `app/core/cache.py`:
`keys = await client.keys(pattern); if keys: return await client.delete(*keys); return 0`.
No exception handling. -/
def cache_delete_pattern (st : RedisState) (pattern : String) :
    Except RedisError (RedisState × Nat) := do
  let keys ← redisKeys st pattern
  match keys with
  | [] => pure (st, 0)
  | _ => redisDelete st keys

/-- A Redis backend that is down (unreachable), with no reachable data. -/
def downRedis : RedisState := { available := false, data := [] }

example : cache_get downRedis "task:1" = .error .connectionUnavailable := by rfl
example : cache_set downRedis "k" "v" = .error .connectionUnavailable := by rfl

/-! ## Embedding of `app/api/tasks.py`

The route handlers are modelled as explicit state transformers over a
`SystemState` (relational store + cache contents).  The cache here is
the same keyspace as `RedisState` but with the backend available and
JSON payloads kept as the structured values they serialize (the
round-trip through `json.dumps`/`json.loads` is identity on these
payloads); TTLs only govern expiry, which needs a clock and does not
affect the sequential claims below. -/

/-- The stats payload assembled by `get_task_stats`. -/
structure Stats where
  total_tasks : Nat
  by_status : List (TaskStatus × Nat)
  by_priority : List (TaskPriority × Nat)
deriving DecidableEq, Repr

/-- The payload assembled by `list_tasks` (`PaginatedResponse` of
`app/schemas/schemas.py`). -/
structure PaginatedResponse where
  items : List Task
  total : Nat
  page : Nat
  page_size : Nat
  total_pages : Nat
deriving DecidableEq, Repr

/-- A deserialized cache value: the three payload shapes the service
ever caches (a task detail, a list page, a stats summary). -/
inductive CacheVal
  | taskV (t : Task)
  | pageV (p : PaginatedResponse)
  | statsV (s : Stats)
deriving DecidableEq, Repr

/-- The cache keyspace as the service sees it (backend available). -/
abbrev MCache : Type := List (String × CacheVal)

/-- `cache_get` as seen by the service when the backend is available:
the entry stored under the key, if any. -/
def cacheGet (c : MCache) (key : String) : Option CacheVal :=
  (List.find? (fun e => e.1 == key) c).map (fun e => e.2)

/-- `cache_set` as seen by the service when the backend is available:
store under the key, overwriting any previous entry. -/
def cacheSet (c : MCache) (key : String) (v : CacheVal) : MCache :=
  (key, v) :: List.filter (fun e => !(e.1 == key)) c

/-- `cache_delete` as seen by the service when the backend is
available: remove the key. -/
def cacheDelete (c : MCache) (key : String) : MCache :=
  List.filter (fun e => !(e.1 == key)) c

/-- `cache_delete_pattern` as seen by the service when the backend is
available: remove every key matching the glob pattern (the code lists
matching keys with `client.keys` and deletes them). -/
def cacheDeletePattern (c : MCache) (pattern : String) : MCache :=
  List.filter (fun e => !(stringGlobMatch pattern e.1)) c

/-- Cache key `task:<id>` of the detail endpoint (tasks.py line 119). -/
def taskKey (taskId : Nat) : String := "task:" ++ toString taskId

/-- Invalidation pattern `tasks:user:<id>:*` used by every mutation. -/
def userTasksPattern (userId : Nat) : String :=
  "tasks:user:" ++ toString userId ++ ":*"

/-- Cache key `stats:user:<id>` of the stats endpoint. -/
def statsKey (userId : Nat) : String := "stats:user:" ++ toString userId

/-- Python `str()` of an optional value, as interpolated into the list
cache key (`None` for absent). -/
def pyStr {α : Type} (render : α → String) : Option α → String
  | none => "None"
  | some x => render x

/-- Rendering of a status value in the list cache key. -/
def statusStr : TaskStatus → String
  | .todo => "todo"
  | .inProgress => "in_progress"
  | .completed => "completed"

/-- Rendering of a priority value in the list cache key. -/
def priorityStr : TaskPriority → String
  | .low => "low"
  | .medium => "medium"
  | .high => "high"

/-- The list cache key of tasks.py line 59:
`tasks:user:<id>:page:<page>:size:<page_size>:status:<status>:priority:<priority>:search:<search>`. -/
def listKey (userId page pageSize : Nat) (status : Option TaskStatus)
    (priority : Option TaskPriority) (search : Option String) : String :=
  "tasks:user:" ++ toString userId ++ ":page:" ++ toString page ++
    ":size:" ++ toString pageSize ++ ":status:" ++ pyStr statusStr status ++
    ":priority:" ++ pyStr priorityStr priority ++ ":search:" ++
    pyStr id search

/-- The whole system state a request handler touches: the relational
store's task table and the cache contents. -/
structure SystemState where
  store : List Task
  cache : MCache
deriving DecidableEq, Repr

/-- The error taxonomy surfaced by the task routes (`HTTPException`
with a detail string; the only one these handlers raise is 404). -/
inductive ApiError
  | notFound (detail : String)
deriving DecidableEq, Repr

/-- SQL `ILIKE '%needle%'`: case-insensitive substring test. -/
def ilikeContains (needle hay : String) : Bool :=
  isInfixChars needle.toLower.data hay.toLower.data
where
  /-- Is `n` a contiguous substring of `h`? -/
  isInfixChars (n h : List Char) : Bool :=
    match h with
    | [] => n.isEmpty
    | _ :: t => n.isPrefixOf h || isInfixChars n t

/-- The row predicate built by `list_tasks` (tasks.py lines 67-81):
owner match, then each filter only when its query parameter is truthy
(`if status:` / `if priority:` / `if search:` — so an empty search
string applies no filter), with the search matching title or
description case-insensitively (`ILIKE '%s%'`; a NULL description never
matches). -/
def taskMatches (userId : Nat) (status : Option TaskStatus)
    (priority : Option TaskPriority) (search : Option String)
    (t : Task) : Bool :=
  t.owner_id == userId &&
  (match status with
   | some st => t.status == st
   | none => true) &&
  (match priority with
   | some pr => t.priority == pr
   | none => true) &&
  (match search with
   | some s =>
     if s == "" then true
     else
       ilikeContains s t.title ||
         (match t.description with
          | some d => ilikeContains s d
          | none => false)
   | none => true)

/-- `total_pages` as computed at tasks.py line 102:
`(total + page_size - 1) // page_size`. -/
def totalPages (total pageSize : Nat) : Nat :=
  (total + pageSize - 1) / pageSize

/-- Newest-first ordering (`ORDER BY created_at DESC`, tasks.py line 90). -/
def sortNewestFirst (l : List Task) : List Task :=
  l.mergeSort (fun a b => b.created_at ≤ a.created_at)

/-- `create_task` (tasks.py lines 25-44): insert the new row (the ORM
assigns the id; both the id and the commit time are parameters here),
then invalidate the pattern `tasks:user:<owner>:*`.  `completed_at`
starts as NULL; `owner_id` is the authenticated caller. -/
def create_task (s : SystemState) (userId : Nat) (data : TaskCreate)
    (newId now : Nat) : Task × SystemState :=
  let t : Task :=
    { id := newId, owner_id := userId, title := data.title,
      description := data.description, status := data.status,
      priority := data.priority, due_date := data.due_date,
      completed_at := none, created_at := now, updated_at := now }
  (t, { store := s.store ++ [t],
        cache := cacheDeletePattern s.cache (userTasksPattern userId) })

/-- `list_tasks` (tasks.py lines 47-108): build the cache key; on a hit
return the cached page; on a miss filter the store, count the matches,
sort newest-first, slice the requested page
(`offset((page-1)*page_size).limit(page_size)`), assemble the response
with `total_pages = (total + page_size - 1) // page_size`, cache it,
and return it. -/
def list_tasks (s : SystemState) (userId page pageSize : Nat)
    (status : Option TaskStatus) (priority : Option TaskPriority)
    (search : Option String) : PaginatedResponse × SystemState :=
  let key := listKey userId page pageSize status priority search
  match cacheGet s.cache key with
  | some (.pageV p) => (p, s)
  | _ =>
    let matching := List.filter (taskMatches userId status priority search) s.store
    let total := matching.length
    let items := (List.take pageSize (List.drop ((page - 1) * pageSize)
      (sortNewestFirst matching)))
    let resp : PaginatedResponse :=
      { items := items, total := total, page := page, page_size := pageSize,
        total_pages := totalPages total pageSize }
    (resp, { s with cache := cacheSet s.cache key (.pageV resp) })

/-- `get_task` (tasks.py lines 111-141): look up `task:<id>` in the
cache and, on a hit, return the cached payload immediately — the code
performs no ownership check on the hit path.  On a miss, query the
store for `id == task_id AND owner_id == current_user.id`; 404 when
absent; otherwise cache and return the row. -/
def get_task (s : SystemState) (userId taskId : Nat) :
    Except ApiError Task × SystemState :=
  let key := taskKey taskId
  match cacheGet s.cache key with
  | some (.taskV t) => (.ok t, s)
  | _ =>
    match List.find? (fun t => t.id == taskId && t.owner_id == userId) s.store with
    | none => (.error (.notFound "Task not found"), s)
    | some t => (.ok t, { s with cache := cacheSet s.cache key (.taskV t) })

/-- The field application of `update_task` (tasks.py lines 166-176):
apply every field present in the body; stamp `completed_at` with the
current time when the body sets status to completed and the stored
status is not already completed (`update_data.get("status") ==
TaskStatus.COMPLETED and task.status != TaskStatus.COMPLETED`).  The
`updated_at` touch is the ORM's `onupdate` timestamp, modelled from the
spec's data model (the ORM module is absent from the sources). -/
def applyUpdate (now : Nat) (t : Task) (u : TaskUpdate) : Task :=
  { t with
    title := u.title.getD t.title,
    description := u.description.getD t.description,
    status := u.status.getD t.status,
    priority := u.priority.getD t.priority,
    due_date := u.due_date.getD t.due_date,
    completed_at :=
      if u.status == some TaskStatus.completed && !(t.status == TaskStatus.completed)
      then some now else t.completed_at,
    updated_at := now }

/-- `update_task` (tasks.py lines 144-182): load by
`id == task_id AND owner_id == current_user.id`; 404 when absent (the
missing and the not-owned case take the same branch); apply the partial
update; persist; delete `task:<id>` and every `tasks:user:<owner>:*`
key; return the updated row. -/
def update_task (s : SystemState) (userId taskId : Nat) (u : TaskUpdate)
    (now : Nat) : Except ApiError Task × SystemState :=
  match List.find? (fun t => t.id == taskId && t.owner_id == userId) s.store with
  | none => (.error (.notFound "Task not found"), s)
  | some t =>
    let t' := applyUpdate now t u
    let store' := s.store.map (fun x => if x.id == taskId then t' else x)
    let cache' := cacheDeletePattern (cacheDelete s.cache (taskKey taskId))
      (userTasksPattern userId)
    (.ok t', { store := store', cache := cache' })

/-- `delete_task` (tasks.py lines 185-212): load by
`id == task_id AND owner_id == current_user.id`; 404 when absent (the
missing and the not-owned case take the same branch); hard-delete the
row; delete `task:<id>` and every `tasks:user:<owner>:*` key; return
the success message. -/
def delete_task (s : SystemState) (userId taskId : Nat) :
    Except ApiError String × SystemState :=
  match List.find? (fun t => t.id == taskId && t.owner_id == userId) s.store with
  | none => (.error (.notFound "Task not found"), s)
  | some _ =>
    let store' := List.filter (fun x => !(x.id == taskId)) s.store
    let cache' := cacheDeletePattern (cacheDelete s.cache (taskKey taskId))
      (userTasksPattern userId)
    (.ok "Task deleted successfully", { store := store', cache := cache' })

/-- The TTL override the stats endpoint passes to `cache_set`
(tasks.py line 253: `await cache_set(cache_key, stats, ttl=60)`). -/
def statsTtlOverride : Int := 60

/-- `get_task_stats` (tasks.py lines 215-255): on a cache miss, count
the caller's tasks per status and per priority, total them, cache the
summary under `stats:user:<id>` with the 60-second TTL override, and
return it. -/
def get_task_stats (s : SystemState) (userId : Nat) :
    Stats × SystemState :=
  let key := statsKey userId
  match cacheGet s.cache key with
  | some (.statsV st) => (st, s)
  | _ =>
    let countWhere := fun (p : Task → Bool) => (List.filter p s.store).length
    let by_status := [TaskStatus.todo, TaskStatus.inProgress, TaskStatus.completed].map
      (fun st => (st, countWhere (fun t => t.owner_id == userId && t.status == st)))
    let by_priority := [TaskPriority.low, TaskPriority.medium, TaskPriority.high].map
      (fun pr => (pr, countWhere (fun t => t.owner_id == userId && t.priority == pr)))
    let stats : Stats :=
      { total_tasks := (by_status.map (fun e => e.2)).sum,
        by_status := by_status, by_priority := by_priority }
    (stats, { s with cache := cacheSet s.cache key (.statsV stats) })

/-! ## Helper lemmas -/

/-- A `find?` that already fails keeps failing on any sublist obtained
by filtering. -/
lemma find?_filter_of_none {α : Type} (p q : α → Bool) (l : List α)
    (h : List.find? p l = none) : List.find? p (List.filter q l) = none := by
  rw [List.find?_eq_none] at h ⊢
  intro x hx
  exact h x (List.mem_filter.mp hx).1

/-- Filtering by a predicate that keeps every `find?` candidate does
not change the `find?` result. -/
lemma find?_filter_of_keep {α : Type} (p q : α → Bool) (l : List α)
    (h : ∀ x, p x = true → q x = true) :
    List.find? p (List.filter q l) = List.find? p l := by
  induction l with
  | nil => rfl
  | cons a t ih =>
    by_cases hpa : p a = true
    · rw [List.filter_cons, if_pos (h a hpa), List.find?_cons_of_pos _ hpa,
        List.find?_cons_of_pos _ hpa]
    · rw [List.filter_cons]
      by_cases hqa : q a = true
      · rw [if_pos hqa, List.find?_cons_of_neg _ hpa, List.find?_cons_of_neg _ hpa, ih]
      · rw [if_neg hqa, List.find?_cons_of_neg _ hpa, ih]

/-- After `cache_delete(key)` the key is gone from the keyspace. -/
lemma cacheGet_cacheDelete_self (c : MCache) (k : String) :
    cacheGet (cacheDelete c k) k = none := by
  have h : List.find? (fun e => e.1 == k) (List.filter (fun e => !(e.1 == k)) c) = none := by
    rw [List.find?_eq_none]
    intro x hx
    have hx2 := (List.mem_filter.mp hx).2
    simp only [Bool.not_eq_true'] at hx2
    simp [hx2]
  simp [cacheGet, cacheDelete, h]

/-- After the mutation handlers' invalidation pair — point-delete of
`task:<id>` followed by the pattern delete — the `task:<id>` key is
gone. -/
lemma cacheGet_invalidate_self (c : MCache) (tid : Nat) (pat : String) :
    cacheGet (cacheDeletePattern (cacheDelete c (taskKey tid)) pat) (taskKey tid) = none := by
  have h1 : List.find? (fun e => e.1 == taskKey tid) (cacheDelete c (taskKey tid)) = none := by
    have h0 := cacheGet_cacheDelete_self c (taskKey tid)
    simpa [cacheGet, Option.map_eq_none'] using h0
  have h2 := find?_filter_of_none (fun (e : String × CacheVal) => e.1 == taskKey tid)
    (fun (e : String × CacheVal) => !(stringGlobMatch pat e.1)) _ h1
  simp [cacheGet, cacheDeletePattern, h2]

/-- Replacing the store row with id `tid` by a row `t'` that carries
the same id and the queried owner makes the ownership-scoped `find?`
return `t'`, provided the original lookup succeeded. -/
lemma find?_map_update (store : List Task) (tid uid : Nat) (t' : Task)
    (hid : t'.id = tid) (hown : t'.owner_id = uid)
    (hex : (List.find? (fun t => t.id == tid && t.owner_id == uid) store).isSome = true) :
    List.find? (fun t => t.id == tid && t.owner_id == uid)
      (store.map (fun x => if x.id == tid then t' else x)) = some t' := by
  induction store with
  | nil => simp [List.find?] at hex
  | cons a rest ih =>
    simp only [List.map_cons]
    by_cases ha : a.id = tid
    · have hrepl : (if a.id == tid then t' else a) = t' := by simp [ha]
      rw [hrepl]
      exact List.find?_cons_of_pos (p := fun (t : Task) => t.id == tid && t.owner_id == uid) _
        (by simp [hid, hown])
    · have hrepl : (if a.id == tid then t' else a) = a := by simp [ha]
      have hpa : ¬((fun (t : Task) => t.id == tid && t.owner_id == uid) a = true) := by
        simp [ha]
      rw [hrepl, List.find?_cons_of_neg (p := fun (t : Task) => t.id == tid && t.owner_id == uid) _ hpa]
      rw [List.find?_cons_of_neg (p := fun (t : Task) => t.id == tid && t.owner_id == uid) _ hpa] at hex
      exact ih hex

/-- After the hard delete of row `tid`, the ownership-scoped `find?`
for `tid` fails. -/
lemma find?_after_delete (store : List Task) (tid uid : Nat) :
    List.find? (fun t => t.id == tid && t.owner_id == uid)
      (List.filter (fun x => !(x.id == tid)) store) = none := by
  rw [List.find?_eq_none]
  intro x hx
  have hx2 := (List.mem_filter.mp hx).2
  simp only [Bool.not_eq_true'] at hx2
  simp [hx2]

/-! ## Fixtures -/

/-- A task owned by user 1, status todo, nothing completed. -/
def task1 : Task :=
  { id := 1, owner_id := 1, title := "A", description := none,
    status := .todo, priority := .medium, due_date := none,
    completed_at := none, created_at := 0, updated_at := 0 }

/-- A system state in which task 1 (owned by user 1) is both in the
store and cached under `task:1`. -/
def leakState : SystemState :=
  { store := [task1], cache := [(taskKey 1, .taskV task1)] }

/-- A request body that only sets the status field. -/
def statusOnly (st : TaskStatus) : TaskUpdate := { status := some st }

/-- The `completed_at` of a handler result (`none` on a 404). -/
def resultCompletedAt (r : Except ApiError Task) : Option Nat :=
  match r with
  | .ok t => t.completed_at
  | .error _ => none

/-! ## Claims -/

/-- C1: the claim says `get_task` verifies ownership on a cache hit and
returns NotFound to a non-owner.  The code (tasks.py lines 118-122)
returns any cached `task:<id>` payload before the owner-scoped store
query runs: with task 1 owned by user 1 sitting in the cache, user 2's
request is answered with user 1's task instead of NotFound. -/
theorem C1_cache_hit_skips_ownership_check :
    (get_task leakState 2 1).1 = .ok task1 ∧ task1.owner_id ≠ 2 := by
  constructor
  · rfl
  · decide

/-- State after user 1 first completes task 1 at time 5. -/
def c2s1 : SystemState :=
  (update_task { store := [task1], cache := [] } 1 1 (statusOnly .completed) 5).2

/-- State after user 1 then moves task 1 back to in-progress at time 6. -/
def c2s2 : SystemState :=
  (update_task c2s1 1 1 (statusOnly .inProgress) 6).2

/-- C2 counterexample: the claim says the second entry into completed
leaves `completed_at` at its first-set value.  Running
todo→completed(at 5)→in-progress(at 6)→completed(at 7) through
`update_task`, the first completion stamps 5, un-completing keeps 5,
but the second completion re-stamps 7: the condition at tasks.py line
169 (`status != COMPLETED` on the stored row) holds again, so
`completed_at` is overwritten, not sticky. -/
theorem C2_completed_at_restamped :
    resultCompletedAt (update_task { store := [task1], cache := [] } 1 1
      (statusOnly .completed) 5).1 = some 5 ∧
    resultCompletedAt (update_task c2s1 1 1 (statusOnly .inProgress) 6).1 = some 5 ∧
    resultCompletedAt (update_task c2s2 1 1 (statusOnly .completed) 7).1 = some 7 := by
  refine ⟨by decide, by decide, by decide⟩

/-- C2 amended: `completed_at` is stamped with the current time on
every transition into completed from a non-completed status (and kept
unchanged while leaving completed), so in
todo→completed→in-progress→completed the second completion re-stamps it
with the later time. -/
theorem C2_amended_completion_restamps (t : Task) (n1 n2 n3 : Nat)
    (h : t.status ≠ .completed) :
    (applyUpdate n1 t (statusOnly .completed)).completed_at = some n1 ∧
    (applyUpdate n2 (applyUpdate n1 t (statusOnly .completed))
      (statusOnly .inProgress)).completed_at = some n1 ∧
    (applyUpdate n3 (applyUpdate n2 (applyUpdate n1 t (statusOnly .completed))
      (statusOnly .inProgress)) (statusOnly .completed)).completed_at = some n3 := by
  simp [applyUpdate, statusOnly, h]

/-- Witness for `C2_amended_completion_restamps` at `task1` (status
todo) and times 5, 6, 7. -/
theorem C2_amended_completion_restamps_witness :
    (applyUpdate 5 task1 (statusOnly .completed)).completed_at = some 5 ∧
    (applyUpdate 6 (applyUpdate 5 task1 (statusOnly .completed))
      (statusOnly .inProgress)).completed_at = some 5 ∧
    (applyUpdate 7 (applyUpdate 6 (applyUpdate 5 task1 (statusOnly .completed))
      (statusOnly .inProgress)) (statusOnly .completed)).completed_at = some 7 :=
  C2_amended_completion_restamps task1 5 6 7 (by decide)

/-- C5: in a sequential execution, once `update_task` has succeeded,
`get_task` by the owner returns exactly the updated row (never the
pre-mutation values), and once `delete_task` has succeeded, `get_task`
returns NotFound — whatever the cache held before: both handlers delete
`task:<id>` (and the owner's list keys) before returning, so the next
get misses the cache and re-reads the store. -/
theorem C5_no_stale_read_after_mutation (s : SystemState) (uid tid : Nat)
    (u : TaskUpdate) (now : Nat) :
    (∀ t' s', update_task s uid tid u now = (.ok t', s') →
      (get_task s' uid tid).1 = .ok t') ∧
    (∀ m s', delete_task s uid tid = (.ok m, s') →
      (get_task s' uid tid).1 = .error (.notFound "Task not found")) := by
  constructor
  · intro t' s' h
    cases hfind : List.find? (fun t => t.id == tid && t.owner_id == uid) s.store with
    | none => simp [update_task, hfind] at h
    | some t0 =>
      have hpred := List.find?_some hfind
      simp only [Bool.and_eq_true, beq_iff_eq] at hpred
      simp only [update_task, hfind, Prod.mk.injEq, Except.ok.injEq] at h
      obtain ⟨h1, h2⟩ := h
      subst h1 h2
      have hcache := cacheGet_invalidate_self s.cache tid (userTasksPattern uid)
      have hstore : List.find? (fun t => t.id == tid && t.owner_id == uid)
          (s.store.map (fun x => if x.id == tid then applyUpdate now t0 u else x)) =
          some (applyUpdate now t0 u) := by
        apply find?_map_update
        · exact hpred.1
        · exact hpred.2
        · rw [hfind]; rfl
      simp only [get_task, hcache, hstore]
  · intro m s' h
    cases hfind : List.find? (fun t => t.id == tid && t.owner_id == uid) s.store with
    | none => simp [delete_task, hfind] at h
    | some t0 =>
      simp only [delete_task, hfind, Prod.mk.injEq, Except.ok.injEq] at h
      obtain ⟨h1, h2⟩ := h
      subst h2
      have hcache := cacheGet_invalidate_self s.cache tid (userTasksPattern uid)
      have hstore := find?_after_delete s.store tid uid
      simp only [get_task, hcache, hstore]

/-- Witness for `C5_no_stale_read_after_mutation`: a concrete update
and a concrete delete of task 1 by its owner in `leakState`, with the
stale `task:1` entry sitting in the cache beforehand. -/
theorem C5_no_stale_read_after_mutation_witness :
    (get_task (update_task leakState 1 1 (statusOnly .completed) 5).2 1 1).1 =
      .ok (applyUpdate 5 task1 (statusOnly .completed)) ∧
    (get_task (delete_task leakState 1 1).2 1 1).1 =
      .error (.notFound "Task not found") := by
  constructor
  · exact (C5_no_stale_read_after_mutation leakState 1 1 (statusOnly .completed) 5).1
      (applyUpdate 5 task1 (statusOnly .completed))
      (update_task leakState 1 1 (statusOnly .completed) 5).2 (by rfl)
  · exact (C5_no_stale_read_after_mutation leakState 1 1 (statusOnly .completed) 5).2
      "Task deleted successfully" (delete_task leakState 1 1).2 (by rfl)

/-- C6: `update_task` and `delete_task` query the store with
`id == task_id AND owner_id == current_user.id`, so a task that does
not exist and a task owned by someone else take the same branch and
produce the identical 404 response ("Task not found") while leaving the
state untouched; repeated deletes of a nonexistent id therefore return
NotFound on every call. -/
theorem C6_notfound_indistinguishable (s : SystemState) (uid tid : Nat)
    (u : TaskUpdate) (now : Nat)
    (h : ∀ t ∈ s.store, ¬(t.id = tid ∧ t.owner_id = uid)) :
    update_task s uid tid u now = (.error (.notFound "Task not found"), s) ∧
    delete_task s uid tid = (.error (.notFound "Task not found"), s) ∧
    delete_task (delete_task s uid tid).2 uid tid =
      (.error (.notFound "Task not found"), s) := by
  have hf : List.find? (fun t => t.id == tid && t.owner_id == uid) s.store = none := by
    rw [List.find?_eq_none]
    intro x hx
    simpa using h x hx
  have hd : delete_task s uid tid = (.error (.notFound "Task not found"), s) := by
    simp [delete_task, hf]
  refine ⟨by simp [update_task, hf], hd, ?_⟩
  rw [hd]
  exact hd

/-- Witness for `C6_notfound_indistinguishable`: user 2 (who does not
own task 1) updating and deleting task 1 in `leakState` — the task
exists but belongs to user 1. -/
theorem C6_notfound_indistinguishable_witness :
    update_task leakState 2 1 (statusOnly .completed) 5 =
      (.error (.notFound "Task not found"), leakState) ∧
    delete_task leakState 2 1 = (.error (.notFound "Task not found"), leakState) ∧
    delete_task (delete_task leakState 2 1).2 2 1 =
      (.error (.notFound "Task not found"), leakState) :=
  C6_notfound_indistinguishable leakState 2 1 (statusOnly .completed) 5 (by decide)

/-- The empty update body (no fields present). -/
def emptyUpdate : TaskUpdate := {}

/-- C8: the frame property of `update_task`'s field application: every
field absent from the request body keeps its prior value; `id`,
`owner_id` and `created_at` never change; `completed_at` only changes
under the completion rule (body sets status to completed while the
stored status is not completed). -/
theorem C8_partial_update_frame (t : Task) (u : TaskUpdate) (now : Nat) :
    (applyUpdate now t u).id = t.id ∧
    (applyUpdate now t u).owner_id = t.owner_id ∧
    (applyUpdate now t u).created_at = t.created_at ∧
    (u.title = none → (applyUpdate now t u).title = t.title) ∧
    (u.description = none → (applyUpdate now t u).description = t.description) ∧
    (u.status = none → (applyUpdate now t u).status = t.status) ∧
    (u.priority = none → (applyUpdate now t u).priority = t.priority) ∧
    (u.due_date = none → (applyUpdate now t u).due_date = t.due_date) ∧
    (¬(u.status = some .completed ∧ t.status ≠ .completed) →
      (applyUpdate now t u).completed_at = t.completed_at) := by
  refine ⟨rfl, rfl, rfl, ?_, ?_, ?_, ?_, ?_, ?_⟩
  · intro h; simp [applyUpdate, h]
  · intro h; simp [applyUpdate, h]
  · intro h; simp [applyUpdate, h]
  · intro h; simp [applyUpdate, h]
  · intro h; simp [applyUpdate, h]
  · intro h
    have hcond : (u.status == some TaskStatus.completed &&
        !(t.status == TaskStatus.completed)) = false := by
      rw [Bool.and_eq_false_iff]
      by_cases hs : u.status = some TaskStatus.completed
      · right
        have : t.status = TaskStatus.completed := by
          by_contra hns
          exact h ⟨hs, hns⟩
        simp [this]
      · left; simpa using hs
    simp [applyUpdate, hcond]

/-- Witness for `C8_partial_update_frame`: the empty body applied to
`task1` at time 5 changes none of the frame fields. -/
theorem C8_partial_update_frame_witness :
    (applyUpdate 5 task1 emptyUpdate).id = task1.id ∧
    (applyUpdate 5 task1 emptyUpdate).title = task1.title ∧
    (applyUpdate 5 task1 emptyUpdate).description = task1.description ∧
    (applyUpdate 5 task1 emptyUpdate).status = task1.status ∧
    (applyUpdate 5 task1 emptyUpdate).priority = task1.priority ∧
    (applyUpdate 5 task1 emptyUpdate).due_date = task1.due_date ∧
    (applyUpdate 5 task1 emptyUpdate).completed_at = task1.completed_at :=
  ⟨(C8_partial_update_frame task1 emptyUpdate 5).1,
   (C8_partial_update_frame task1 emptyUpdate 5).2.2.2.1 rfl,
   (C8_partial_update_frame task1 emptyUpdate 5).2.2.2.2.1 rfl,
   (C8_partial_update_frame task1 emptyUpdate 5).2.2.2.2.2.1 rfl,
   (C8_partial_update_frame task1 emptyUpdate 5).2.2.2.2.2.2.1 rfl,
   (C8_partial_update_frame task1 emptyUpdate 5).2.2.2.2.2.2.2.1 rfl,
   (C8_partial_update_frame task1 emptyUpdate 5).2.2.2.2.2.2.2.2 (by decide)⟩

/-- C3: the claim says every cache operation fails open (get returns
absent, set/delete no-op) when the backend is down.  `app/core/cache.py`
wraps no client call in any exception handler, so with the backend
unavailable each of the four operations propagates the connection error
to its caller instead of degrading to a miss. -/
theorem C3_cache_errors_propagate :
    cache_get downRedis "task:1" = .error .connectionUnavailable ∧
    cache_set downRedis "task:1" "v" none = .error .connectionUnavailable ∧
    cache_delete downRedis "task:1" = .error .connectionUnavailable ∧
    cache_delete_pattern downRedis "tasks:user:1:*" = .error .connectionUnavailable :=
  ⟨rfl, rfl, rfl, rfl⟩

/-- The pattern `tasks:user:<uid>:*` never matches the stats key
`stats:user:<uid>`: the two key namespaces differ at their first
character. -/
lemma pattern_no_match_statsKey (uid : Nat) :
    stringGlobMatch (userTasksPattern uid) (statsKey uid) = false := by
  unfold stringGlobMatch userTasksPattern statsKey
  rw [String.data_append, String.data_append]
  show globMatch ('t' :: _) ('s' :: _) = false
  simp [globMatch]

/-- An arbitrary cached stats payload. -/
def statsVal : Stats := { total_tasks := 0, by_status := [], by_priority := [] }

/-- An arbitrary cached list page. -/
def pageVal : PaginatedResponse :=
  { items := [], total := 0, page := 1, page_size := 20, total_pages := 0 }

/-- A create request body. -/
def taskData : TaskCreate :=
  { title := "A", description := none, status := .todo, priority := .medium,
    due_date := none }

/-- A state in which user 1 has both a stats entry and a list page in
the cache. -/
def c4state : SystemState :=
  { store := [],
    cache := [(statsKey 1, .statsV statsVal),
              (listKey 1 1 20 none none none, .pageV pageVal)] }

/-- C4 counterexample: the claim says a successful create invalidates
both the `tasks:user:<O>:*` keys and the aggregate key `stats:user:<O>`.
`create_task` (tasks.py line 42) only deletes the pattern
`tasks:user:<id>:*`, which the stats key does not match: after user 1
creates a task, the cached list page is gone but the stats entry is
still served. -/
theorem C4_stats_key_survives_create :
    cacheGet (create_task c4state 1 taskData 1 0).2.cache (statsKey 1) =
      some (.statsV statsVal) ∧
    cacheGet (create_task c4state 1 taskData 1 0).2.cache
      (listKey 1 1 20 none none none) = none := by
  constructor
  · decide
  · decide

/-- C4 amended: a successful create invalidates exactly the keys
matching `tasks:user:<O>:*` — afterwards no key matching that pattern
remains in the cache — while the aggregate key `stats:user:<O>` is left
untouched (its staleness is bounded by the 60-second TTL instead of
synchronous invalidation). -/
theorem C4_amended_create_invalidation (s : SystemState) (uid : Nat)
    (d : TaskCreate) (newId now : Nat) :
    (∀ e ∈ (create_task s uid d newId now).2.cache,
       stringGlobMatch (userTasksPattern uid) e.1 = false) ∧
    cacheGet (create_task s uid d newId now).2.cache (statsKey uid) =
      cacheGet s.cache (statsKey uid) := by
  constructor
  · intro e he
    simp only [create_task, cacheDeletePattern] at he
    have h2 := (List.mem_filter.mp he).2
    simpa using h2
  · unfold create_task cacheGet cacheDeletePattern
    rw [find?_filter_of_keep]
    intro x hx
    have hx' : x.1 = statsKey uid := by simpa using hx
    rw [hx']
    simp [pattern_no_match_statsKey uid]

/-- Witness for `C4_amended_create_invalidation` at `c4state`: the
surviving stats entry does not match the invalidation pattern, and its
cached value is untouched by the create. -/
theorem C4_amended_create_invalidation_witness :
    stringGlobMatch (userTasksPattern 1) (statsKey 1, CacheVal.statsV statsVal).1 = false ∧
    cacheGet (create_task c4state 1 taskData 1 0).2.cache (statsKey 1) =
      cacheGet c4state.cache (statsKey 1) :=
  ⟨(C4_amended_create_invalidation c4state 1 taskData 1 0).1
     (statsKey 1, CacheVal.statsV statsVal) (by decide),
   (C4_amended_create_invalidation c4state 1 taskData 1 0).2⟩

/-- C7: on a cache miss, `list_tasks` reports `total` as the count of
rows matching the filter predicate and `total_pages` as the ceiling of
`total / page_size` (Mathlib's `⌈/⌉` on ℕ); for an owner with exactly
25 matching tasks, page 1 with page size 10 carries 10 items,
total 25 and total_pages 3. -/
theorem C7_pagination (s : SystemState) (uid : Nat)
    (stF : Option TaskStatus) (prF : Option TaskPriority) (seF : Option String) :
    (cacheGet s.cache (listKey uid 1 10 stF prF seF) = none →
     (List.filter (taskMatches uid stF prF seF) s.store).length = 25 →
     (list_tasks s uid 1 10 stF prF seF).1.items.length = 10 ∧
     (list_tasks s uid 1 10 stF prF seF).1.total = 25 ∧
     (list_tasks s uid 1 10 stF prF seF).1.total_pages = 3) ∧
    (∀ page pageSize : Nat,
     cacheGet s.cache (listKey uid page pageSize stF prF seF) = none →
     (list_tasks s uid page pageSize stF prF seF).1.total =
       (List.filter (taskMatches uid stF prF seF) s.store).length ∧
     (list_tasks s uid page pageSize stF prF seF).1.total_pages =
       (list_tasks s uid page pageSize stF prF seF).1.total ⌈/⌉ pageSize) := by
  constructor
  · intro hmiss hcount
    simp only [list_tasks, hmiss]
    refine ⟨?_, hcount, ?_⟩
    · simp [List.length_take, List.length_drop, sortNewestFirst,
        List.length_mergeSort, hcount]
    · simp [totalPages, hcount]
  · intro page pageSize hmiss
    simp only [list_tasks, hmiss]
    refine ⟨trivial, ?_⟩
    rw [Nat.ceilDiv_eq_add_pred_div]
    rfl

/-- The i-th sample task of user 1 (ids and creation times 1..25). -/
def mkTask (i : Nat) : Task :=
  { id := i, owner_id := 1, title := "t", description := none,
    status := .todo, priority := .medium, due_date := none,
    completed_at := none, created_at := i, updated_at := i }

/-- A state where user 1 owns 25 tasks and the cache is empty. -/
def c7state : SystemState :=
  { store := (List.range 25).map (fun i => mkTask (i + 1)), cache := [] }

/-- Witness for `C7_pagination`: the 25-task store, page 1, size 10,
no filters. -/
theorem C7_pagination_witness :
    (list_tasks c7state 1 1 10 none none none).1.items.length = 10 ∧
    (list_tasks c7state 1 1 10 none none none).1.total = 25 ∧
    (list_tasks c7state 1 1 10 none none none).1.total_pages = 3 :=
  (C7_pagination c7state 1 none none none).1 rfl (by decide)

/-- `total_pages` of an empty result is 0 for every page size. -/
lemma totalPages_zero_total (ps : Nat) : totalPages 0 ps = 0 := by
  cases ps with
  | zero => rfl
  | succ n =>
    unfold totalPages
    apply Nat.div_eq_of_lt
    omega

/-- C10: `(total + page_size - 1) // page_size` is exact ceiling
division — it is the least `m` with `total ≤ page_size * m` — and an
owner with no matching rows gets `total = 0`, `total_pages = 0` and an
empty items list on every requested page. -/
theorem C10_total_pages_ceiling_spec :
    (∀ total pageSize : Nat, 1 ≤ pageSize →
       total ≤ pageSize * totalPages total pageSize ∧
       (∀ m : Nat, total ≤ pageSize * m → totalPages total pageSize ≤ m)) ∧
    (∀ (s : SystemState) (uid page pageSize : Nat) (stF : Option TaskStatus)
       (prF : Option TaskPriority) (seF : Option String),
       1 ≤ page →
       cacheGet s.cache (listKey uid page pageSize stF prF seF) = none →
       List.filter (taskMatches uid stF prF seF) s.store = [] →
       (list_tasks s uid page pageSize stF prF seF).1 =
         { items := [], total := 0, page := page, page_size := pageSize,
           total_pages := 0 }) := by
  constructor
  · intro total ps hps
    constructor
    · unfold totalPages
      have h1 := Nat.div_add_mod (total + ps - 1) ps
      have h2 : (total + ps - 1) % ps < ps := Nat.mod_lt _ (by omega)
      omega
    · intro m hm
      unfold totalPages
      rw [Nat.div_le_iff_le_mul_add_pred hps]
      omega
  · intro s uid page ps stF prF seF hpage hmiss hempty
    simp only [list_tasks, hmiss, hempty]
    simp [sortNewestFirst, totalPages_zero_total]

/-- A state with no tasks and an empty cache. -/
def emptyState : SystemState := { store := [], cache := [] }

/-- Witness for `C10_total_pages_ceiling_spec`: the ceiling bounds at
total 25, page size 10 (with minimality checked against m = 3), and the
empty listing for a user with no tasks. -/
theorem C10_total_pages_ceiling_spec_witness :
    (25 ≤ 10 * totalPages 25 10 ∧ totalPages 25 10 ≤ 3) ∧
    (list_tasks emptyState 1 1 10 none none none).1 =
      { items := [], total := 0, page := 1, page_size := 10,
        total_pages := 0 } :=
  ⟨⟨((C10_total_pages_ceiling_spec.1 25 10 (by decide)).1),
    ((C10_total_pages_ceiling_spec.1 25 10 (by decide)).2 3 (by decide))⟩,
   C10_total_pages_ceiling_spec.2 emptyState 1 1 10 none none none
     (by decide) rfl rfl⟩

/-- C9: `cache_set` resolves its ttl argument with
`ttl or settings.REDIS_CACHE_TTL`, so both `None` and `0` store with
the configured default of 300 seconds, the resolved TTL is never zero,
and the stats endpoint's override of 60 seconds is strictly shorter
than the default. -/
theorem C9_ttl_defaulting (st : RedisState) (key value : String) :
    cache_set st key value none = redisSetex st key settings.REDIS_CACHE_TTL value ∧
    cache_set st key value (some 0) = redisSetex st key settings.REDIS_CACHE_TTL value ∧
    settings.REDIS_CACHE_TTL = 300 ∧
    statsTtlOverride = 60 ∧
    statsTtlOverride < settings.REDIS_CACHE_TTL ∧
    (∀ ttl : Option Int, pyOrInt ttl settings.REDIS_CACHE_TTL ≠ 0) := by
  refine ⟨rfl, rfl, rfl, rfl, by decide, ?_⟩
  intro ttl
  cases ttl with
  | none => decide
  | some v =>
    simp only [pyOrInt]
    split
    · decide
    · assumption

/-- Witness for `C9_ttl_defaulting` at the down backend, key "k",
value "v", and the nonzero requested TTL 7. -/
theorem C9_ttl_defaulting_witness :
    cache_set downRedis "k" "v" none =
      redisSetex downRedis "k" settings.REDIS_CACHE_TTL "v" ∧
    pyOrInt (some 7) settings.REDIS_CACHE_TTL ≠ 0 :=
  ⟨(C9_ttl_defaulting downRedis "k" "v").1,
   (C9_ttl_defaulting downRedis "k" "v").2.2.2.2.2 (some 7)⟩

end TaskApi
